import Mathlib

/-!
Shallow embedding of the background research-job core of the repository:
`src/shared/job_manager.py` (JobStatus, JobStage, JobProgress, Job, JobManager),
`src/Agent/background_executor.py` (BackgroundJobExecutor.execute_job and
_execute_stage_with_delay), and `src/API/jobs.py` (retry_job, execute_job_wrapper).

Modelling conventions:
* `datetime.now()` is a logical clock: the manager state carries `now : Nat`,
  and every manager operation that can read the clock advances it by one.
* `uuid.uuid4()` is a fresh-id supply: the manager state carries `nextId : Nat`
  and job ids are `Nat`.
* The Python dict `self.jobs` preserves insertion order, so it is modelled as an
  insertion-ordered `List Job`; lookups scan by `job_id`.
* The opaque result dictionary returned by the research collaborator is
  modelled as `ResultData`, a wrapper over a string payload.
* `asyncio.sleep` is a pure pacing point; the cooperative cancellation flag as
  observed at checkpoint number `c` is the job's stored flag OR-ed with an
  environment function saying when an external cancel request lands.
-/

/-- Job execution status (`JobStatus` in job_manager.py). -/
inductive JobStatus where
  | pending
  | running
  | completed
  | failed
  | cancelled
  | retryStatus
deriving DecidableEq, Repr

/-- Stages in the research workflow (`JobStage` in job_manager.py). -/
inductive JobStage where
  | initialization
  | document_retrieval
  | web_research
  | citation_verification
  | compliance_check
  | report_generation
  | finalization
deriving DecidableEq, Repr

/-- The string `.value` of a stage, as in the Python enum. -/
def JobStage.value : JobStage → String
  | .initialization => "initialization"
  | .document_retrieval => "document_retrieval"
  | .web_research => "web_research"
  | .citation_verification => "citation_verification"
  | .compliance_check => "compliance_check"
  | .report_generation => "report_generation"
  | .finalization => "finalization"

/-- Job progress information (`JobProgress` dataclass). Percentages are exact
rationals standing in for Python floats. -/
structure JobProgress where
  current_stage : JobStage := .initialization
  stages_completed : List String := []
  total_stages : Nat := 7
  completed_stages : Nat := 0
  percentage : ℚ := 0
  current_operation : String := ""
  last_updated : Nat := 0
deriving DecidableEq, Repr

/-- `JobProgress.update(stage, operation)`: record the current stage and
operation, append the stage to `stages_completed` if not already present,
and recompute the percentage. `now` is the logical timestamp. The source
computes `(completed_stages / total_stages) * 100` in exact arithmetic; it is
written here in the executable normal form `mkRat (completed * 100) total`,
proved equal to the literal formula in `mkRat_percent_eq`. -/
def JobProgress.update (p : JobProgress) (stage : JobStage) (operation : String)
    (now : Nat) : JobProgress :=
  let p1 := { p with current_stage := stage, current_operation := operation }
  let p2 :=
    if stage.value ∈ p1.stages_completed then p1
    else
      let sc := p1.stages_completed ++ [stage.value]
      { p1 with stages_completed := sc, completed_stages := sc.length }
  { p2 with
      percentage := mkRat (p2.completed_stages * 100) p2.total_stages,
      last_updated := now }

/-- Opaque structured result payload of the research collaborator
(`Dict[str, Any]` in the source). -/
structure ResultData where
  payload : String
deriving DecidableEq, Repr

/-- One entry of a job's `execution_history`. -/
structure ExecutionRecord where
  timestamp : Nat
  stage : String
  success : Bool
  details : String
deriving DecidableEq, Repr

/-- A background research job (`Job` dataclass). -/
structure Job where
  job_id : Nat
  query : String
  status : JobStatus := .pending
  created_at : Nat := 0
  started_at : Option Nat := none
  completed_at : Option Nat := none
  progress : JobProgress := {}
  result : Option ResultData := none
  error : Option String := none
  retry_count : Nat := 0
  max_retries : Nat := 3
  cancellation_requested : Bool := false
  idempotency_key : Option String := none
  execution_history : List ExecutionRecord := []
deriving DecidableEq, Repr

/-- The job registry (`JobManager`). `jobs` is the insertion-ordered job
dictionary; `nextId` models the uuid4 fresh-id supply; `now` the clock.
The threading lock and event loop handle have no observable sequential
behaviour and are omitted. -/
structure JobManager where
  jobs : List Job := []
  nextId : Nat := 0
  now : Nat := 0
deriving DecidableEq, Repr

/-- Dictionary lookup `self.jobs.get(job_id)`. -/
def JobManager.findJob (m : JobManager) (id : Nat) : Option Job :=
  m.jobs.find? (fun j => j.job_id == id)

/-- Apply `f` to the job stored under `id` (in-place mutation of the record
held in the dict); no-op when the id is absent. -/
def JobManager.setJob (m : JobManager) (id : Nat) (f : Job → Job) : JobManager :=
  { m with jobs := m.jobs.map (fun j => if j.job_id == id then f j else j) }

/-- Python truthiness of the optional idempotency key: `if idempotency_key:`
is false for `None` and for the empty string. -/
def keyTruthy : Option String → Bool
  | none => false
  | some k => k ≠ ""

/-- `JobManager.create_job(query, idempotency_key)`: if the key is truthy and
some existing job has that key with status COMPLETED or RUNNING, return that
job unchanged; otherwise allocate a fresh id and append a new PENDING job. -/
def JobManager.create_job (m : JobManager) (query : String)
    (idempotency_key : Option String) : Job × JobManager :=
  let hit :=
    if keyTruthy idempotency_key then
      m.jobs.find? (fun j =>
        j.idempotency_key == idempotency_key &&
          (j.status == .completed || j.status == .running))
    else none
  match hit with
  | some j => (j, { m with now := m.now + 1 })
  | none =>
    let job : Job :=
      { job_id := m.nextId, query := query, created_at := m.now,
        idempotency_key := idempotency_key }
    (job, { m with jobs := m.jobs ++ [job], nextId := m.nextId + 1, now := m.now + 1 })

/-- The per-job mutation of `update_job_status` (the `if`/`elif` body in the
source): set the status; stamp `started_at` only on a transition into RUNNING
when it is still unset; stamp `completed_at` on every transition into a
terminal status. -/
def applyStatus (now : Nat) (status : JobStatus) (j : Job) : Job :=
  let j1 := { j with status := status }
  if status = .running ∧ j1.started_at = none then
    { j1 with started_at := some now }
  else if status = .completed ∨ status = .failed ∨ status = .cancelled then
    { j1 with completed_at := some now }
  else j1

/-- `JobManager.update_job_status(job_id, status)`. -/
def JobManager.update_job_status (m : JobManager) (id : Nat) (status : JobStatus) :
    JobManager :=
  let m1 := m.setJob id (applyStatus m.now status)
  { m1 with now := m.now + 1 }

/-- `JobManager.update_job_progress(job_id, stage, operation)`. -/
def JobManager.update_job_progress (m : JobManager) (id : Nat) (stage : JobStage)
    (operation : String) : JobManager :=
  let m1 := m.setJob id (fun j => { j with progress := j.progress.update stage operation m.now })
  { m1 with now := m.now + 1 }

/-- `JobManager.cancel_job(job_id) -> bool`: set the cancellation flag and
return `true` only when the job exists and is RUNNING; otherwise return
`false` and leave the state untouched. -/
def JobManager.cancel_job (m : JobManager) (id : Nat) : Bool × JobManager :=
  match m.findJob id with
  | some j =>
    if j.status = .running then
      (true, m.setJob id (fun j => { j with cancellation_requested := true }))
    else (false, m)
  | none => (false, m)

/-- `JobManager.is_cancellation_requested(job_id)`. -/
def JobManager.is_cancellation_requested (m : JobManager) (id : Nat) : Bool :=
  match m.findJob id with
  | some j => j.cancellation_requested
  | none => false

/-- `JobManager.mark_job_completed(job_id, result)`: set status COMPLETED,
store the result, stamp `completed_at`, force percentage to 100. -/
def JobManager.mark_job_completed (m : JobManager) (id : Nat) (result : ResultData) :
    JobManager :=
  let m1 := m.setJob id (fun j =>
    { j with status := .completed, result := some result,
             completed_at := some m.now,
             progress := { j.progress with percentage := 100 } })
  { m1 with now := m.now + 1 }

/-- `JobManager.mark_job_failed(job_id, error, allow_retry)`: always record the
error; if retrying is allowed and the retry budget is not exhausted, set
status RETRY and bump `retry_count`; otherwise set terminal FAILED and stamp
`completed_at`. -/
def JobManager.mark_job_failed (m : JobManager) (id : Nat) (error : String)
    (allow_retry : Bool) : JobManager :=
  let m1 := m.setJob id (fun j =>
    let j1 := { j with error := some error }
    if allow_retry ∧ j1.retry_count < j1.max_retries then
      { j1 with status := .retryStatus, retry_count := j1.retry_count + 1 }
    else
      { j1 with status := .failed, completed_at := some m.now })
  { m1 with now := m.now + 1 }

/-- `Job.add_execution_record(stage, success, details)`, lifted to the manager
(the Python method mutates the job object stored in the dict). -/
def JobManager.addRecord (m : JobManager) (id : Nat) (stage : String)
    (success : Bool) (details : String) : JobManager :=
  let m1 := m.setJob id (fun j =>
    { j with execution_history :=
        j.execution_history ++
          [{ timestamp := m.now, stage := stage, success := success, details := details }] })
  { m1 with now := m.now + 1 }

/-- Status of the job stored under `id`, if any. -/
def JobManager.statusOf (m : JobManager) (id : Nat) : Option JobStatus :=
  (m.findJob id).map Job.status

/-- `started_at` of the job stored under `id`, if any. -/
def JobManager.startedAt (m : JobManager) (id : Nat) : Option Nat :=
  (m.findJob id).bind Job.started_at

/-- `completed_at` of the job stored under `id`, if any. -/
def JobManager.completedAt (m : JobManager) (id : Nat) : Option Nat :=
  (m.findJob id).bind Job.completed_at

/-!
Executor embedding (`src/Agent/background_executor.py`).

Checkpoints: each call to `_check_cancellation` (both the five checks inside a
stage's paced sub-step loop and the post-stage check in `execute_job`) consumes
one checkpoint index, counted from 0 across the whole run. An external
`cancel_job` request arriving asynchronously is modelled by `ExecEnv.cancelAt`:
the stored flag reads true at checkpoint `c` when the job's own flag is set or
`cancelAt = some t` with `t ≤ c`. The external research collaborator call
`agent.run_research(query)` is the modelled fallible operation; its outcome is
`ExecEnv.agentResult` (an exception it raises is the `Except.error` case).
-/

/-- Environment of one pipeline run: when an external cancel request lands
(by checkpoint index), and what the research collaborator returns. -/
structure ExecEnv where
  cancelAt : Option Nat
  agentResult : Except String ResultData
deriving Repr

/-- The cancellation flag as observed at checkpoint `c` (`cancelAt` is the
checkpoint index from which the external cancel request is visible). -/
def observeCancel (cancelAt : Option Nat) (m : JobManager) (id : Nat) (c : Nat) : Bool :=
  m.is_cancellation_requested id ||
    (match cancelAt with
     | some t => decide (t ≤ c)
     | none => false)

/-- The sub-step loop of `_execute_stage_with_delay`: for each of the `total`
(= 5) steps, sleep, check cancellation (one checkpoint; break if observed),
otherwise push a progress update annotated with the sub-step percentage.
Returns the state and the next checkpoint index. -/
def subSteps (cancelAt : Option Nat) (id : Nat) (stage : JobStage) (operation : String)
    (total : Nat) : Nat → Nat → JobManager → JobManager × Nat
  | 0, c, m => (m, c)
  | n + 1, c, m =>
    if observeCancel cancelAt m id c then (m, c + 1)
    else
      let stepIdx := total - (n + 1)
      let pct := ((stepIdx + 1) * 100) / total
      let m1 := m.update_job_progress id stage
        (operation ++ " (" ++ toString pct ++ "%)")
      subSteps cancelAt id stage operation total n (c + 1) m1

/-- `_execute_stage_with_delay(job_id, stage, operation)`: one initial progress
update, then the five paced sub-steps. -/
def execStageWithDelay (cancelAt : Option Nat) (id : Nat) (stage : JobStage)
    (operation : String) (c : Nat) (m : JobManager) : JobManager × Nat :=
  let m1 := m.update_job_progress id stage operation
  subSteps cancelAt id stage operation 5 5 c m1

/-- `_handle_cancellation(job_id)`: mark the job CANCELLED. -/
def handleCancellation (m : JobManager) (id : Nat) : JobManager :=
  m.update_job_status id .cancelled

deriving instance DecidableEq for Except

/-- Outcome of `execute_job`: the returned result, the cancellation result
dictionary, a propagated exception (after `mark_job_failed`), or the
`ValueError` for an unknown job id. -/
inductive ExecOutcome where
  | completed (r : ResultData)
  | cancelledRes
  | raised (e : String)
  | notFound
deriving DecidableEq, Repr

/-- One repeated stage block of `execute_job` (the pattern the source repeats
for stages 1-5): run the paced delay, check cancellation (on observation mark
the job CANCELLED and stop with the cancellation result), otherwise append the
stage's execution record and continue with the next checkpoint index. -/
def checkedStage (cancelAt : Option Nat) (id : Nat) (stage : JobStage)
    (operation details : String) (s : JobManager × Nat) :
    Except JobManager (JobManager × Nat) :=
  let p := execStageWithDelay cancelAt id stage operation s.2 s.1
  if observeCancel cancelAt p.1 id p.2 then .error (handleCancellation p.1 id)
  else .ok (p.1.addRecord id stage.value true details, p.2 + 1)

/-- `BackgroundJobExecutor.execute_job(job_id)`: mark RUNNING, then the seven
stages in order. Stages 1-5 are the repeated `checkedStage` block. Stage 6
(REPORT_GENERATION) runs its paced delay and cancellation check, then invokes
the research collaborator: an exception there triggers
`mark_job_failed(allow_retry defaulting to True)` and re-raises; on success the
stage record is appended. Stage 7 (FINALIZATION) runs its paced delay and
record but has NO cancellation check after the sub-steps: the run proceeds
directly to `mark_job_completed`. -/
def executeJob (env : ExecEnv) (id : Nat) (m : JobManager) :
    JobManager × ExecOutcome :=
  match m.findJob id with
  | none => (m, .notFound)
  | some _ =>
    let m := m.update_job_status id .running
    -- STAGE 1: INITIALIZATION
    match checkedStage env.cancelAt id .initialization
      "Initializing research agent and loading configurations"
      "Agent initialized successfully" (m, 0) with
    | .error mc => (mc, .cancelledRes)
    | .ok s1 =>
    -- STAGE 2: DOCUMENT RETRIEVAL
    match checkedStage env.cancelAt id .document_retrieval
      "Searching document database using RAG"
      "Documents retrieved from vector database" s1 with
    | .error mc => (mc, .cancelledRes)
    | .ok s2 =>
    -- STAGE 3: WEB RESEARCH
    match checkedStage env.cancelAt id .web_research
      "Conducting web research for current information"
      "Web research completed" s2 with
    | .error mc => (mc, .cancelledRes)
    | .ok s3 =>
    -- STAGE 4: CITATION VERIFICATION
    match checkedStage env.cancelAt id .citation_verification
      "Verifying and formatting citations"
      "Citations verified and formatted" s3 with
    | .error mc => (mc, .cancelledRes)
    | .ok s4 =>
    -- STAGE 5: COMPLIANCE CHECK
    match checkedStage env.cancelAt id .compliance_check
      "Running PII scan and compliance checks"
      "Compliance check passed" s4 with
    | .error mc => (mc, .cancelledRes)
    | .ok s5 =>
    -- STAGE 6: REPORT GENERATION (delay, check, collaborator call, record)
    let p := execStageWithDelay env.cancelAt id .report_generation
      "Generating comprehensive research report" s5.2 s5.1
    if observeCancel env.cancelAt p.1 id p.2 then
      (handleCancellation p.1 id, .cancelledRes)
    else
      match env.agentResult with
      | .error e => (p.1.mark_job_failed id e true, .raised e)
      | .ok result =>
        let m6 := p.1.addRecord id JobStage.report_generation.value true
          "Report generated successfully"
        -- STAGE 7: FINALIZATION (delay, record, complete; no check)
        let p7 := execStageWithDelay env.cancelAt id .finalization
          "Finalizing report and cleanup" (p.2 + 1) m6
        let m7 := p7.1.addRecord id JobStage.finalization.value true
          "Job finalized"
        (m7.mark_job_completed id result, .completed result)

/-!
API layer embedding (`src/API/jobs.py`).
-/

/-- HTTP-level outcome of the `retry_job` endpoint. -/
inductive RetryOutcome where
  | notFoundJob
  | invalidState
  | accepted
deriving DecidableEq, Repr

/-- The `retry_job` endpoint: 404 for an unknown id, 400 unless the status is
FAILED or CANCELLED, otherwise reset the status to PENDING via
`update_job_status` and clear the error in place. -/
def retryJob (m : JobManager) (id : Nat) : RetryOutcome × JobManager :=
  match m.findJob id with
  | none => (.notFoundJob, m)
  | some j =>
    if j.status = .failed ∨ j.status = .cancelled then
      let m1 := m.update_job_status id .pending
      let m2 := m1.setJob id (fun j => { j with error := none })
      (.accepted, m2)
    else (.invalidState, m)

/-- `execute_job_wrapper(job_id)`: run the job; a propagated exception is
caught and reported through a second `mark_job_failed(..., allow_retry=True)`
with the message prefixed by the exception type name. -/
def executeJobWrapper (env : ExecEnv) (id : Nat) (m : JobManager) :
    JobManager × ExecOutcome :=
  let p := executeJob env id m
  match p.2 with
  | .raised e => (p.1.mark_job_failed id ("Exception: " ++ e) true, .raised e)
  | o => (p.1, o)

/-- `mark_job_failed(job_id, error, allow_retry=True)` iterated `n` times in a
row, for the retry-bound property. -/
def iterFail (id : Nat) (e : String) : Nat → JobManager → JobManager
  | 0, m => m
  | n + 1, m => (iterFail id e n m).mark_job_failed id e true

/-- Registry well-formedness: every stored job id was drawn from the fresh-id
supply, i.e. is below `nextId`. -/
def JobManager.wf (m : JobManager) : Prop :=
  ∀ j ∈ m.jobs, j.job_id < m.nextId

instance (m : JobManager) : Decidable m.wf :=
  inferInstanceAs (Decidable (∀ j ∈ m.jobs, j.job_id < m.nextId))

/-- The empty registry. -/
def emptyManager : JobManager := {}

/-- The expected stage order of a complete run's execution history. -/
def stageOrder : List String :=
  ["initialization", "document_retrieval", "web_research",
   "citation_verification", "compliance_check", "report_generation",
   "finalization"]

/-- Fixture: registry holding one freshly created job (id 0, PENDING). -/
def mPending : JobManager := (emptyManager.create_job "q" none).2

/-- Fixture: the job record stored in `mPending`. -/
def jPending : Job := { job_id := 0, query := "q", created_at := 0 }

/-- Fixture: `mPending` after the job transitions to RUNNING. -/
def mRunning : JobManager := mPending.update_job_status 0 .running

/-- Fixture: the job record stored in `mRunning`. -/
def jRunning : Job :=
  { job_id := 0, query := "q", status := .running, created_at := 0,
    started_at := some 1 }

/-- Fixture: `mRunning` after the job transitions to FAILED. -/
def mFailed : JobManager := mRunning.update_job_status 0 .failed

/-- Fixture: the job record stored in `mFailed`. -/
def jFailed : Job :=
  { job_id := 0, query := "q", status := .failed, created_at := 0,
    started_at := some 1, completed_at := some 2 }

/-- Fixture: registry state of the canonical successful run (query "q", no
cancellation request) after step 1 of the staged pipeline evaluation. -/
def execState1 : JobManager :=
  { jobs := [
      { job_id := 0,
        query := "q",
        status := JobStatus.running,
        created_at := 0,
        started_at := some 1,
        completed_at := none,
        progress := { current_stage := JobStage.initialization, stages_completed := ["initialization"], total_stages := 7, completed_stages := 1, percentage := mkRat 100 7, current_operation := "Initializing research agent and loading configurations (100%)", last_updated := 7 },
        result := none,
        error := none,
        retry_count := 0,
        max_retries := 3,
        cancellation_requested := false,
        idempotency_key := none,
        execution_history := [{ timestamp := 8, stage := "initialization", success := true, details := "Agent initialized successfully" }] }],
    nextId := 1, now := 9 }

/-- Fixture: registry state of the canonical successful run (query "q", no
cancellation request) after step 2 of the staged pipeline evaluation. -/
def execState2 : JobManager :=
  { jobs := [
      { job_id := 0,
        query := "q",
        status := JobStatus.running,
        created_at := 0,
        started_at := some 1,
        completed_at := none,
        progress := { current_stage := JobStage.document_retrieval, stages_completed := ["initialization", "document_retrieval"], total_stages := 7, completed_stages := 2, percentage := mkRat 200 7, current_operation := "Searching document database using RAG (100%)", last_updated := 14 },
        result := none,
        error := none,
        retry_count := 0,
        max_retries := 3,
        cancellation_requested := false,
        idempotency_key := none,
        execution_history := [{ timestamp := 8, stage := "initialization", success := true, details := "Agent initialized successfully" }, { timestamp := 15, stage := "document_retrieval", success := true, details := "Documents retrieved from vector database" }] }],
    nextId := 1, now := 16 }

/-- Fixture: registry state of the canonical successful run (query "q", no
cancellation request) after step 3 of the staged pipeline evaluation. -/
def execState3 : JobManager :=
  { jobs := [
      { job_id := 0,
        query := "q",
        status := JobStatus.running,
        created_at := 0,
        started_at := some 1,
        completed_at := none,
        progress := { current_stage := JobStage.web_research, stages_completed := ["initialization", "document_retrieval", "web_research"], total_stages := 7, completed_stages := 3, percentage := mkRat 300 7, current_operation := "Conducting web research for current information (100%)", last_updated := 21 },
        result := none,
        error := none,
        retry_count := 0,
        max_retries := 3,
        cancellation_requested := false,
        idempotency_key := none,
        execution_history := [{ timestamp := 8, stage := "initialization", success := true, details := "Agent initialized successfully" }, { timestamp := 15, stage := "document_retrieval", success := true, details := "Documents retrieved from vector database" }, { timestamp := 22, stage := "web_research", success := true, details := "Web research completed" }] }],
    nextId := 1, now := 23 }

/-- Fixture: registry state of the canonical successful run (query "q", no
cancellation request) after step 4 of the staged pipeline evaluation. -/
def execState4 : JobManager :=
  { jobs := [
      { job_id := 0,
        query := "q",
        status := JobStatus.running,
        created_at := 0,
        started_at := some 1,
        completed_at := none,
        progress := { current_stage := JobStage.citation_verification, stages_completed := ["initialization", "document_retrieval", "web_research", "citation_verification"], total_stages := 7, completed_stages := 4, percentage := mkRat 400 7, current_operation := "Verifying and formatting citations (100%)", last_updated := 28 },
        result := none,
        error := none,
        retry_count := 0,
        max_retries := 3,
        cancellation_requested := false,
        idempotency_key := none,
        execution_history := [{ timestamp := 8, stage := "initialization", success := true, details := "Agent initialized successfully" }, { timestamp := 15, stage := "document_retrieval", success := true, details := "Documents retrieved from vector database" }, { timestamp := 22, stage := "web_research", success := true, details := "Web research completed" }, { timestamp := 29, stage := "citation_verification", success := true, details := "Citations verified and formatted" }] }],
    nextId := 1, now := 30 }

/-- Fixture: registry state of the canonical successful run (query "q", no
cancellation request) after step 5 of the staged pipeline evaluation. -/
def execState5 : JobManager :=
  { jobs := [
      { job_id := 0,
        query := "q",
        status := JobStatus.running,
        created_at := 0,
        started_at := some 1,
        completed_at := none,
        progress := { current_stage := JobStage.compliance_check, stages_completed := ["initialization", "document_retrieval", "web_research", "citation_verification", "compliance_check"], total_stages := 7, completed_stages := 5, percentage := mkRat 500 7, current_operation := "Running PII scan and compliance checks (100%)", last_updated := 35 },
        result := none,
        error := none,
        retry_count := 0,
        max_retries := 3,
        cancellation_requested := false,
        idempotency_key := none,
        execution_history := [{ timestamp := 8, stage := "initialization", success := true, details := "Agent initialized successfully" }, { timestamp := 15, stage := "document_retrieval", success := true, details := "Documents retrieved from vector database" }, { timestamp := 22, stage := "web_research", success := true, details := "Web research completed" }, { timestamp := 29, stage := "citation_verification", success := true, details := "Citations verified and formatted" }, { timestamp := 36, stage := "compliance_check", success := true, details := "Compliance check passed" }] }],
    nextId := 1, now := 37 }

/-- Fixture: registry state of the canonical successful run (query "q", no
cancellation request) after step 6 of the staged pipeline evaluation. -/
def execState6 : JobManager :=
  { jobs := [
      { job_id := 0,
        query := "q",
        status := JobStatus.running,
        created_at := 0,
        started_at := some 1,
        completed_at := none,
        progress := { current_stage := JobStage.report_generation, stages_completed := ["initialization", "document_retrieval", "web_research", "citation_verification", "compliance_check", "report_generation"], total_stages := 7, completed_stages := 6, percentage := mkRat 600 7, current_operation := "Generating comprehensive research report (100%)", last_updated := 42 },
        result := none,
        error := none,
        retry_count := 0,
        max_retries := 3,
        cancellation_requested := false,
        idempotency_key := none,
        execution_history := [{ timestamp := 8, stage := "initialization", success := true, details := "Agent initialized successfully" }, { timestamp := 15, stage := "document_retrieval", success := true, details := "Documents retrieved from vector database" }, { timestamp := 22, stage := "web_research", success := true, details := "Web research completed" }, { timestamp := 29, stage := "citation_verification", success := true, details := "Citations verified and formatted" }, { timestamp := 36, stage := "compliance_check", success := true, details := "Compliance check passed" }] }],
    nextId := 1, now := 43 }

/-- Fixture: registry state of the canonical successful run (query "q", no
cancellation request) after step 7 of the staged pipeline evaluation. -/
def execState7 : JobManager :=
  { jobs := [
      { job_id := 0,
        query := "q",
        status := JobStatus.running,
        created_at := 0,
        started_at := some 1,
        completed_at := none,
        progress := { current_stage := JobStage.report_generation, stages_completed := ["initialization", "document_retrieval", "web_research", "citation_verification", "compliance_check", "report_generation"], total_stages := 7, completed_stages := 6, percentage := mkRat 600 7, current_operation := "Generating comprehensive research report (100%)", last_updated := 42 },
        result := none,
        error := none,
        retry_count := 0,
        max_retries := 3,
        cancellation_requested := false,
        idempotency_key := none,
        execution_history := [{ timestamp := 8, stage := "initialization", success := true, details := "Agent initialized successfully" }, { timestamp := 15, stage := "document_retrieval", success := true, details := "Documents retrieved from vector database" }, { timestamp := 22, stage := "web_research", success := true, details := "Web research completed" }, { timestamp := 29, stage := "citation_verification", success := true, details := "Citations verified and formatted" }, { timestamp := 36, stage := "compliance_check", success := true, details := "Compliance check passed" }, { timestamp := 43, stage := "report_generation", success := true, details := "Report generated successfully" }] }],
    nextId := 1, now := 44 }

/-- Fixture: registry state of the canonical successful run (query "q", no
cancellation request) after step 8 of the staged pipeline evaluation. -/
def execState8 : JobManager :=
  { jobs := [
      { job_id := 0,
        query := "q",
        status := JobStatus.running,
        created_at := 0,
        started_at := some 1,
        completed_at := none,
        progress := { current_stage := JobStage.finalization, stages_completed := ["initialization", "document_retrieval", "web_research", "citation_verification", "compliance_check", "report_generation", "finalization"], total_stages := 7, completed_stages := 7, percentage := mkRat 100 1, current_operation := "Finalizing report and cleanup (100%)", last_updated := 49 },
        result := none,
        error := none,
        retry_count := 0,
        max_retries := 3,
        cancellation_requested := false,
        idempotency_key := none,
        execution_history := [{ timestamp := 8, stage := "initialization", success := true, details := "Agent initialized successfully" }, { timestamp := 15, stage := "document_retrieval", success := true, details := "Documents retrieved from vector database" }, { timestamp := 22, stage := "web_research", success := true, details := "Web research completed" }, { timestamp := 29, stage := "citation_verification", success := true, details := "Citations verified and formatted" }, { timestamp := 36, stage := "compliance_check", success := true, details := "Compliance check passed" }, { timestamp := 43, stage := "report_generation", success := true, details := "Report generated successfully" }] }],
    nextId := 1, now := 50 }

/-- Fixture: registry state of the canonical successful run (query "q", no
cancellation request) after step 9 of the staged pipeline evaluation. -/
def execState9 : JobManager :=
  { jobs := [
      { job_id := 0,
        query := "q",
        status := JobStatus.running,
        created_at := 0,
        started_at := some 1,
        completed_at := none,
        progress := { current_stage := JobStage.finalization, stages_completed := ["initialization", "document_retrieval", "web_research", "citation_verification", "compliance_check", "report_generation", "finalization"], total_stages := 7, completed_stages := 7, percentage := mkRat 100 1, current_operation := "Finalizing report and cleanup (100%)", last_updated := 49 },
        result := none,
        error := none,
        retry_count := 0,
        max_retries := 3,
        cancellation_requested := false,
        idempotency_key := none,
        execution_history := [{ timestamp := 8, stage := "initialization", success := true, details := "Agent initialized successfully" }, { timestamp := 15, stage := "document_retrieval", success := true, details := "Documents retrieved from vector database" }, { timestamp := 22, stage := "web_research", success := true, details := "Web research completed" }, { timestamp := 29, stage := "citation_verification", success := true, details := "Citations verified and formatted" }, { timestamp := 36, stage := "compliance_check", success := true, details := "Compliance check passed" }, { timestamp := 43, stage := "report_generation", success := true, details := "Report generated successfully" }, { timestamp := 50, stage := "finalization", success := true, details := "Job finalized" }] }],
    nextId := 1, now := 51 }

/-- Fixture: the job record stored in `execState9`. -/
def execJob9 : Job :=
  { job_id := 0,
        query := "q",
        status := JobStatus.running,
        created_at := 0,
        started_at := some 1,
        completed_at := none,
        progress := { current_stage := JobStage.finalization, stages_completed := ["initialization", "document_retrieval", "web_research", "citation_verification", "compliance_check", "report_generation", "finalization"], total_stages := 7, completed_stages := 7, percentage := mkRat 100 1, current_operation := "Finalizing report and cleanup (100%)", last_updated := 49 },
        result := none,
        error := none,
        retry_count := 0,
        max_retries := 3,
        cancellation_requested := false,
        idempotency_key := none,
        execution_history := [{ timestamp := 8, stage := "initialization", success := true, details := "Agent initialized successfully" }, { timestamp := 15, stage := "document_retrieval", success := true, details := "Documents retrieved from vector database" }, { timestamp := 22, stage := "web_research", success := true, details := "Web research completed" }, { timestamp := 29, stage := "citation_verification", success := true, details := "Citations verified and formatted" }, { timestamp := 36, stage := "compliance_check", success := true, details := "Compliance check passed" }, { timestamp := 43, stage := "report_generation", success := true, details := "Report generated successfully" }, { timestamp := 50, stage := "finalization", success := true, details := "Job finalized" }] }

/-!
General lemmas about lookup and per-job update.
-/

theorem findJob_eq_id (m : JobManager) (id : Nat) (j : Job)
    (h : m.findJob id = some j) : j.job_id = id := by
  have := List.find?_some h
  simpa using this

theorem find?_map_ite (l : List Job) (tid id : Nat) (f : Job → Job)
    (hf : ∀ j, (f j).job_id = j.job_id) :
    (l.map (fun j => if j.job_id == tid then f j else j)).find?
        (fun j => j.job_id == id)
      = (l.find? (fun j => j.job_id == id)).map
          (fun j => if j.job_id == tid then f j else j) := by
  induction l with
  | nil => rfl
  | cons a l ih =>
    have hpred : ((if a.job_id == tid then f a else a).job_id == id)
        = (a.job_id == id) := by
      by_cases h : a.job_id == tid
      · simp [h, hf]
      · simp [h]
    rw [List.map_cons, List.find?_cons, List.find?_cons]
    show (match (if a.job_id == tid then f a else a).job_id == id with
          | true => some (if a.job_id == tid then f a else a)
          | false =>
            (l.map (fun j : Job => if j.job_id == tid then f j else j)).find?
              (fun j : Job => j.job_id == id)) = _
    rw [hpred]
    cases hpa : (a.job_id == id) with
    | true => simp
    | false => simpa using ih

theorem findJob_setJob (m : JobManager) (tid id : Nat) (f : Job → Job)
    (hf : ∀ j, (f j).job_id = j.job_id) :
    (m.setJob tid f).findJob id
      = (m.findJob id).map (fun j => if j.job_id == tid then f j else j) :=
  find?_map_ite m.jobs tid id f hf

theorem findJob_setJob_self (m : JobManager) (id : Nat) (f : Job → Job) (j : Job)
    (hf : ∀ j, (f j).job_id = j.job_id) (hj : m.findJob id = some j) :
    (m.setJob id f).findJob id = some (f j) := by
  rw [findJob_setJob m id id f hf, hj]
  simp [findJob_eq_id m id j hj]

theorem findJob_setJob_ne (m : JobManager) (tid id : Nat) (f : Job → Job)
    (hf : ∀ j, (f j).job_id = j.job_id) (h : id ≠ tid) :
    (m.setJob tid f).findJob id = m.findJob id := by
  rw [findJob_setJob m tid id f hf]
  cases hj : m.findJob id with
  | none => rfl
  | some j =>
    have := findJob_eq_id m id j hj
    simp [this, h]

theorem applyStatus_job_id (now : Nat) (st : JobStatus) (j : Job) :
    (applyStatus now st j).job_id = j.job_id := by
  unfold applyStatus
  dsimp only
  split
  · rfl
  · split <;> rfl

theorem applyStatus_status (now : Nat) (st : JobStatus) (j : Job) :
    (applyStatus now st j).status = st := by
  unfold applyStatus
  dsimp only
  split
  · rfl
  · split <;> rfl

theorem applyStatus_key (now : Nat) (st : JobStatus) (j : Job) :
    (applyStatus now st j).idempotency_key = j.idempotency_key := by
  unfold applyStatus
  dsimp only
  split
  · rfl
  · split <;> rfl

theorem findJob_update_job_status (m : JobManager) (id : Nat) (st : JobStatus)
    (j : Job) (hj : m.findJob id = some j) :
    (m.update_job_status id st).findJob id = some (applyStatus m.now st j) := by
  show (JobManager.setJob m id _).findJob id = _
  rw [findJob_setJob_self m id _ j (applyStatus_job_id m.now st) hj]

theorem findJob_mark_job_failed (m : JobManager) (id : Nat) (e : String)
    (b : Bool) (j : Job) (hj : m.findJob id = some j) :
    (m.mark_job_failed id e b).findJob id =
      some (if b = true ∧ j.retry_count < j.max_retries then
              { j with error := some e, status := .retryStatus,
                       retry_count := j.retry_count + 1 }
            else
              { j with error := some e, status := .failed,
                       completed_at := some m.now }) := by
  show (JobManager.setJob m id _).findJob id = _
  rw [findJob_setJob_self m id _ j
    (by intro j'; dsimp only; split <;> rfl) hj]

theorem findJob_mark_job_completed (m : JobManager) (id : Nat) (r : ResultData)
    (j : Job) (hj : m.findJob id = some j) :
    (m.mark_job_completed id r).findJob id =
      some { j with status := .completed, result := some r,
                    completed_at := some m.now,
                    progress := { j.progress with percentage := 100 } } := by
  show (JobManager.setJob m id _).findJob id = _
  rw [findJob_setJob_self m id _ j (by intro j'; rfl) hj]

theorem findJob_update_job_progress (m : JobManager) (id : Nat) (stage : JobStage)
    (op : String) (j : Job) (hj : m.findJob id = some j) :
    (m.update_job_progress id stage op).findJob id =
      some { j with progress := j.progress.update stage op m.now } := by
  show (JobManager.setJob m id _).findJob id = _
  rw [findJob_setJob_self m id _ j (by intro j'; rfl) hj]

theorem iterFail_find (id : Nat) (e : String) :
    ∀ (k : Nat) (m : JobManager) (j : Job), m.findJob id = some j →
      j.retry_count + k ≤ j.max_retries →
      ∃ j', (iterFail id e k m).findJob id = some j' ∧
        j'.retry_count = j.retry_count + k ∧ j'.max_retries = j.max_retries := by
  intro k
  induction k with
  | zero =>
    intro m j hj _
    exact ⟨j, hj, by omega, rfl⟩
  | succ n ih =>
    intro m j hj hle
    obtain ⟨j', h1, h2, h3⟩ := ih m j hj (by omega)
    have hlt : j'.retry_count < j'.max_retries := by omega
    refine ⟨{ j' with error := some e, status := .retryStatus, retry_count := j'.retry_count + 1 }, ?_, ?_, ?_⟩
    · show ((iterFail id e n m).mark_job_failed id e true).findJob id = _
      rw [findJob_mark_job_failed _ id e true j' h1, if_pos ⟨rfl, hlt⟩]
    · show j'.retry_count + 1 = j.retry_count + (n + 1)
      omega
    · exact h3

/-- C2: `mark_failed` with `allow_retry=true` while `retry_count < max_retries`
sets status RETRY and increments `retry_count`; with `allow_retry=false` or an
exhausted budget it sets terminal FAILED and stamps `completed_at`; and a fresh
job failed `max_retries + 1` times in a row ends FAILED with
`retry_count == max_retries`. -/
theorem mark_failed_retry_bound (m : JobManager) (id : Nat) (j : Job) (e : String)
    (hj : m.findJob id = some j) :
    (j.retry_count < j.max_retries →
      (m.mark_job_failed id e true).findJob id =
        some { j with error := some e, status := .retryStatus,
                      retry_count := j.retry_count + 1 })
    ∧ (∀ b : Bool, (b = false ∨ j.max_retries ≤ j.retry_count) →
        (m.mark_job_failed id e b).findJob id =
          some { j with error := some e, status := .failed,
                        completed_at := some m.now })
    ∧ (j.retry_count = 0 →
        ∃ j', (iterFail id e (j.max_retries + 1) m).findJob id = some j' ∧
          j'.status = .failed ∧ j'.retry_count = j.max_retries ∧
          j'.completed_at.isSome = true) := by
  refine ⟨?_, ?_, ?_⟩
  · intro hlt
    rw [findJob_mark_job_failed m id e true j hj, if_pos ⟨rfl, hlt⟩]
  · intro b hb
    rw [findJob_mark_job_failed m id e b j hj, if_neg ?_]
    rintro ⟨hb1, hb2⟩
    rcases hb with hb | hb
    · rw [hb] at hb1; cases hb1
    · omega
  · intro h0
    obtain ⟨j', h1, h2, h3⟩ :=
      iterFail_find id e j.max_retries m j hj (by omega)
    refine ⟨{ j' with error := some e, status := .failed, completed_at := some (iterFail id e j.max_retries m).now }, ?_, rfl, ?_, rfl⟩
    · show ((iterFail id e j.max_retries m).mark_job_failed id e true).findJob id = _
      rw [findJob_mark_job_failed _ id e true j' h1,
        if_neg (by rintro ⟨_, hlt⟩; omega)]
    · show j'.retry_count = j.max_retries
      omega

/-- Witness for C2 at a registry holding one fresh job. -/
theorem mark_failed_retry_bound_witness :
    mPending.findJob 0 = some jPending ∧
    jPending.retry_count < jPending.max_retries ∧
    (mPending.mark_job_failed 0 "err" true).findJob 0 =
      some { jPending with error := some "err", status := .retryStatus, retry_count := jPending.retry_count + 1 } ∧
    ∃ j', (iterFail 0 "err" (jPending.max_retries + 1) mPending).findJob 0 = some j' ∧
      j'.status = .failed ∧ j'.retry_count = jPending.max_retries ∧
      j'.completed_at.isSome = true := by
  refine ⟨by decide, by decide, ?_, ?_⟩
  · exact (mark_failed_retry_bound mPending 0 jPending "err" (by decide)).1 (by decide)
  · exact (mark_failed_retry_bound mPending 0 jPending "err" (by decide)).2.2 (by decide)

/-- The percentage formula of the source, `(completed / total) * 100` over
exact rationals, equals the executable `mkRat` form used in the embedding
(also when `total = 0`, where both sides are 0). -/
theorem mkRat_percent_eq (c t : Nat) :
    mkRat (c * 100) t = ((c : ℚ) / (t : ℚ)) * 100 := by
  rw [Rat.mkRat_eq_div]
  push_cast
  rw [div_mul_eq_mul_div, mul_comm]

theorem progress_update_eq (p : JobProgress) (stage : JobStage) (op : String)
    (t : Nat) :
    p.update stage op t =
      if stage.value ∈ p.stages_completed then
        { p with current_stage := stage, current_operation := op,
                 percentage := mkRat (p.completed_stages * 100) p.total_stages,
                 last_updated := t }
      else
        { p with current_stage := stage, current_operation := op,
                 stages_completed := p.stages_completed ++ [stage.value],
                 completed_stages := (p.stages_completed ++ [stage.value]).length,
                 percentage := mkRat ((p.stages_completed ++ [stage.value]).length * 100) p.total_stages,
                 last_updated := t } := by
  unfold JobProgress.update
  by_cases h : stage.value ∈ p.stages_completed <;> simp [h]

/-- C5: one `JobProgress.update` call either leaves `completed_stages`
unchanged (stage already recorded) or increments it by one; afterwards the
percentage equals `completed_stages / total_stages * 100`; the percentage
never decreases; and the length invariant and the at-most-once occurrence of
each stage in `stages_completed` are preserved. -/
theorem progress_update_monotone (p : JobProgress) (stage : JobStage)
    (op : String) (t : Nat)
    (hinv : p.completed_stages = p.stages_completed.length)
    (hper : p.percentage = ((p.completed_stages : ℚ) / (p.total_stages : ℚ)) * 100)
    (hnd : p.stages_completed.Nodup) :
    ((p.update stage op t).completed_stages = p.completed_stages ∨
      (p.update stage op t).completed_stages = p.completed_stages + 1)
    ∧ (p.update stage op t).percentage =
        (((p.update stage op t).completed_stages : ℚ) /
          ((p.update stage op t).total_stages : ℚ)) * 100
    ∧ p.percentage ≤ (p.update stage op t).percentage
    ∧ (p.update stage op t).completed_stages =
        (p.update stage op t).stages_completed.length
    ∧ (p.update stage op t).stages_completed.Nodup := by
  rw [progress_update_eq]
  by_cases h : stage.value ∈ p.stages_completed
  · rw [if_pos h]
    refine ⟨Or.inl rfl, ?_, ?_, hinv, hnd⟩
    · exact mkRat_percent_eq _ _
    · show p.percentage ≤ mkRat (p.completed_stages * 100) p.total_stages
      rw [mkRat_percent_eq, hper]
  · rw [if_neg h]
    have hlen2 : (p.stages_completed ++ [stage.value]).length
        = p.completed_stages + 1 := by
      rw [hinv, List.length_append, List.length_singleton]
    refine ⟨Or.inr hlen2, ?_, ?_, rfl, ?_⟩
    · exact mkRat_percent_eq _ _
    · show p.percentage ≤
        mkRat ((p.stages_completed ++ [stage.value]).length * 100) p.total_stages
      rw [mkRat_percent_eq, hlen2, hper]
      push_cast
      rcases Nat.eq_zero_or_pos p.total_stages with h0 | hpos
      · simp [h0]
      · have hT : (0:ℚ) < (p.total_stages : ℚ) := by exact_mod_cast hpos
        have hd := (div_le_div_iff_of_pos_right hT).2
          (show (p.completed_stages : ℚ) ≤ (p.completed_stages : ℚ) + 1 by linarith)
        nlinarith
    · simp [List.nodup_append, hnd, h]

/-- Witness for C5 at the default tracker. -/
theorem progress_update_monotone_witness :
    (({} : JobProgress).completed_stages = ({} : JobProgress).stages_completed.length)
    ∧ (({} : JobProgress).update .initialization "op" 3).completed_stages =
        (({} : JobProgress).update .initialization "op" 3).stages_completed.length
    ∧ ({} : JobProgress).percentage ≤ (({} : JobProgress).update .initialization "op" 3).percentage := by
  have h := progress_update_monotone {} .initialization "op" 3 (by decide)
    (by norm_num) (by decide)
  exact ⟨by decide, h.2.2.2.1, h.2.2.1⟩

/-- C6: `cancel_job` returns true and sets the cancellation flag exactly when
the job exists with status RUNNING (all other jobs untouched); for a job in
any other status, or an unknown id, it returns false and leaves the registry
completely unchanged. -/
theorem cancel_job_spec (m : JobManager) (id : Nat) :
    (∀ j, m.findJob id = some j → j.status = .running →
      (m.cancel_job id).1 = true ∧
      (m.cancel_job id).2.findJob id = some { j with cancellation_requested := true } ∧
      ∀ id2, id2 ≠ id → (m.cancel_job id).2.findJob id2 = m.findJob id2)
    ∧ (∀ j, m.findJob id = some j → j.status ≠ .running →
        m.cancel_job id = (false, m))
    ∧ (m.findJob id = none → m.cancel_job id = (false, m)) := by
  refine ⟨?_, ?_, ?_⟩
  · intro j hj hrun
    have hcj : m.cancel_job id =
        (true, m.setJob id (fun j2 => { j2 with cancellation_requested := true })) := by
      simp only [JobManager.cancel_job, hj, if_pos hrun]
    rw [hcj]
    refine ⟨rfl, ?_, ?_⟩
    · exact findJob_setJob_self m id _ j (fun j2 => rfl) hj
    · intro id2 hne
      exact findJob_setJob_ne m id id2 _ (fun j2 => rfl) hne
  · intro j hj hnr
    simp only [JobManager.cancel_job, hj, if_neg hnr]
  · intro h
    simp only [JobManager.cancel_job, h]

/-- Witness for C6 at a registry with one RUNNING job. -/
theorem cancel_job_spec_witness :
    mRunning.findJob 0 = some jRunning ∧ jRunning.status = .running ∧
    (mRunning.cancel_job 0).1 = true ∧
    (mRunning.cancel_job 0).2.findJob 0 =
      some { jRunning with cancellation_requested := true } := by
  have h := (cancel_job_spec mRunning 0).1 jRunning (by decide) (by decide)
  exact ⟨by decide, by decide, h.1, h.2.1⟩

/-- C9: the retry endpoint on a FAILED or CANCELLED job answers accepted,
resets the status to PENDING and clears the error, leaving every other field
of the job (progress, execution history, retry count, timestamps, flag) and
every other job unchanged; any other status is rejected with no change, and an
unknown id is a not-found with no change. -/
theorem retry_job_spec (m : JobManager) (id : Nat) :
    (∀ j, m.findJob id = some j → (j.status = .failed ∨ j.status = .cancelled) →
      (retryJob m id).1 = .accepted ∧
      (retryJob m id).2.findJob id = some { j with status := .pending, error := none } ∧
      ∀ id2, id2 ≠ id → (retryJob m id).2.findJob id2 = m.findJob id2)
    ∧ (∀ j, m.findJob id = some j → ¬(j.status = .failed ∨ j.status = .cancelled) →
        retryJob m id = (.invalidState, m))
    ∧ (m.findJob id = none → retryJob m id = (.notFoundJob, m)) := by
  refine ⟨?_, ?_, ?_⟩
  · intro j hj hst
    have hrj : retryJob m id =
        (.accepted, (m.update_job_status id .pending).setJob id
          (fun j2 => { j2 with error := none })) := by
      simp only [retryJob, hj, if_pos hst]
    rw [hrj]
    have hj1 : (m.update_job_status id .pending).findJob id =
        some { j with status := .pending } := by
      rw [findJob_update_job_status m id .pending j hj]
      simp [applyStatus]
    refine ⟨rfl, ?_, ?_⟩
    · show ((m.update_job_status id .pending).setJob id
          (fun j2 => { j2 with error := none })).findJob id =
        some { j with status := .pending, error := none }
      rw [findJob_setJob_self (m.update_job_status id .pending) id
        (fun j2 => { j2 with error := none }) _ (fun j2 => rfl) hj1]
    · intro id2 hne
      show ((m.update_job_status id .pending).setJob id
          (fun j2 => { j2 with error := none })).findJob id2 = m.findJob id2
      rw [findJob_setJob_ne (m.update_job_status id .pending) id id2
        (fun j2 => { j2 with error := none }) (fun j2 => rfl) hne]
      show (JobManager.setJob m id _).findJob id2 = m.findJob id2
      exact findJob_setJob_ne m id id2 _ (applyStatus_job_id m.now .pending) hne
  · intro j hj hst
    simp only [retryJob, hj, if_neg hst]
  · intro h
    simp only [retryJob, h]

/-- Witness for C9 at a registry with one FAILED job. -/
theorem retry_job_spec_witness :
    mFailed.findJob 0 = some jFailed ∧ jFailed.status = .failed ∧
    (retryJob mFailed 0).1 = .accepted ∧
    (retryJob mFailed 0).2.findJob 0 =
      some { jFailed with status := .pending, error := none } := by
  have h := (retry_job_spec mFailed 0).1 jFailed (by decide) (Or.inl (by decide))
  exact ⟨by decide, by decide, h.1, h.2.1⟩

theorem findJob_append_fresh (m : JobManager) (hwf : m.wf) (job : Job)
    (hid : job.job_id = m.nextId) :
    (m.jobs ++ [job]).find? (fun j => j.job_id == m.nextId) = some job := by
  have h1 : m.jobs.find? (fun j => j.job_id == m.nextId) = none := by
    rw [List.find?_eq_none]
    intro x hx
    simpa using Nat.ne_of_lt (hwf x hx)
  rw [List.find?_append, h1]
  simp [hid]

/-- C7: immediately after a `create` with the query alone (no idempotency
key), looking the returned job id up in the registry yields that job, with
status PENDING, the given query, no result, no error, and zero retries. -/
theorem create_then_get (m : JobManager) (q : String) (hwf : m.wf) :
    (m.create_job q none).2.findJob (m.create_job q none).1.job_id
        = some (m.create_job q none).1
    ∧ (m.create_job q none).1.status = .pending
    ∧ (m.create_job q none).1.query = q
    ∧ (m.create_job q none).1.result = none
    ∧ (m.create_job q none).1.error = none
    ∧ (m.create_job q none).1.retry_count = 0 := by
  refine ⟨?_, rfl, rfl, rfl, rfl, rfl⟩
  show (m.jobs ++ [_]).find? (fun j : Job => j.job_id == m.nextId) = _
  exact findJob_append_fresh m hwf _ rfl

/-- Witness for C7 on a registry already holding one job. -/
theorem create_then_get_witness :
    (mPending.create_job "q2" none).2.findJob
        (mPending.create_job "q2" none).1.job_id
      = some (mPending.create_job "q2" none).1
    ∧ (mPending.create_job "q2" none).1.status = .pending
    ∧ (mPending.create_job "q2" none).1.query = "q2"
    ∧ (mPending.create_job "q2" none).1.result = none
    ∧ (mPending.create_job "q2" none).1.error = none
    ∧ (mPending.create_job "q2" none).1.retry_count = 0 :=
  create_then_get mPending "q2" (by decide)

/-- C3 (amended): `started_at`, once set, is never changed by any further
status update; but `completed_at` is (re)written on every transition into a
terminal status: `mark_completed` always stamps the current time, so a second
call overwrites the first timestamp. -/
theorem timestamps_write_behavior (m : JobManager) (id : Nat) (st : JobStatus)
    (r : ResultData) (t : Nat) (hs : m.startedAt id = some t) :
    (m.update_job_status id st).startedAt id = some t
    ∧ ((st = .completed ∨ st = .failed ∨ st = .cancelled) →
        (m.update_job_status id st).completedAt id = some m.now)
    ∧ (m.mark_job_completed id r).completedAt id = some m.now := by
  obtain ⟨j, hj, hjs⟩ : ∃ j, m.findJob id = some j ∧ j.started_at = some t := by
    unfold JobManager.startedAt at hs
    cases hj : m.findJob id with
    | none => rw [hj] at hs; cases hs
    | some j => rw [hj] at hs; exact ⟨j, rfl, hs⟩
  refine ⟨?_, ?_, ?_⟩
  · unfold JobManager.startedAt
    rw [findJob_update_job_status m id st j hj]
    by_cases h2 : st = .completed ∨ st = .failed ∨ st = .cancelled <;>
      simp [applyStatus, hjs, h2]
  · intro h2
    unfold JobManager.completedAt
    rw [findJob_update_job_status m id st j hj]
    have hnr : st ≠ .running := by
      rcases h2 with h | h | h <;> rw [h] <;> intro hc <;> cases hc
    simp [applyStatus, hjs, h2, hnr]
  · unfold JobManager.completedAt
    rw [findJob_mark_job_completed m id r j hj]
    rfl

/-- Witness for C3 (amended) on a RUNNING job whose `started_at` is set. -/
theorem timestamps_write_behavior_witness :
    mRunning.startedAt 0 = some 1
    ∧ (mRunning.update_job_status 0 .completed).startedAt 0 = some 1
    ∧ (mRunning.update_job_status 0 .completed).completedAt 0 = some mRunning.now
    ∧ (mRunning.mark_job_completed 0 ⟨"r"⟩).completedAt 0 = some mRunning.now := by
  have h := timestamps_write_behavior mRunning 0 .completed ⟨"r"⟩ 1 (by decide)
  exact ⟨by decide, h.1, h.2.1 (Or.inl rfl), h.2.2⟩

/-- C3 counterexample: calling `mark_completed` twice does not leave
`completed_at` at the first call's timestamp — the second call overwrites it
(timestamp 1 becomes timestamp 2). -/
theorem completed_at_overwritten :
    (mPending.mark_job_completed 0 ⟨"r"⟩).completedAt 0 = some 1
    ∧ ((mPending.mark_job_completed 0 ⟨"r"⟩).mark_job_completed 0 ⟨"r"⟩).completedAt 0
        = some 2
    ∧ (2 : Nat) ≠ 1 := by
  refine ⟨by decide, by decide, by decide⟩

theorem setJob_map_untouched (l : List Job) (tid : Nat) (f : Job → Job)
    (h : ∀ j ∈ l, j.job_id ≠ tid) :
    l.map (fun j => if j.job_id == tid then f j else j) = l := by
  induction l with
  | nil => rfl
  | cons a l ih =>
    have h1 : a.job_id ≠ tid := h a (List.mem_cons_self a l)
    rw [List.map_cons, if_neg (by simpa using h1),
      ih (fun j hj => h j (List.mem_cons_of_mem a hj))]

theorem find?_key_none (k : String) (l : List Job)
    (hl : ∀ j ∈ l, j.idempotency_key ≠ some k) :
    l.find? (fun j => j.idempotency_key == some k &&
      (j.status == .completed || j.status == .running)) = none := by
  rw [List.find?_eq_none]
  intro x hx
  simp [hl x hx]

theorem create_job_fresh (m : JobManager) (q k : String) (hk : k ≠ "")
    (hfresh : ∀ j ∈ m.jobs, j.idempotency_key ≠ some k) :
    m.create_job q (some k) =
      ({ job_id := m.nextId, query := q, created_at := m.now, idempotency_key := some k },
       { m with
          jobs := m.jobs ++ [{ job_id := m.nextId, query := q, created_at := m.now, idempotency_key := some k }],
          nextId := m.nextId + 1, now := m.now + 1 }) := by
  have hkt : keyTruthy (some k) = true := by simp [keyTruthy, hk]
  unfold JobManager.create_job
  simp only [hkt, if_true, find?_key_none k m.jobs hfresh]

/-- C1 (amended): for two `create` calls with the same NON-EMPTY idempotency
key that no job of the registry carries beforehand: if, at the time of the
second call, the job returned by the first call has been moved to RUNNING or
COMPLETED, the second call returns the identical job id and appends no job to
the registry; if it was moved to any other status, the second call creates a
brand-new PENDING job under a fresh id not previously in the registry. (The
original claim additionally covered the non-null empty-string key, for which
the source's truthiness test skips deduplication entirely and always creates a
new job; see the counterexample.) -/
theorem create_idempotent_dedup (m : JobManager) (q1 q2 k : String)
    (hk : k ≠ "") (hwf : m.wf)
    (hfresh : ∀ j ∈ m.jobs, j.idempotency_key ≠ some k)
    (j1 : Job) (m1 : JobManager) (h1 : m.create_job q1 (some k) = (j1, m1))
    (st : JobStatus) (m2 : JobManager)
    (h2 : m1.update_job_status j1.job_id st = m2)
    (j2 : Job) (m3 : JobManager) (h3 : m2.create_job q2 (some k) = (j2, m3)) :
    ((st = .running ∨ st = .completed) →
      j2.job_id = j1.job_id ∧ m3.jobs = m2.jobs)
    ∧ (st ≠ .running → st ≠ .completed →
        j2.status = .pending ∧ j2.job_id ≠ j1.job_id ∧
        m2.findJob j2.job_id = none ∧ m3.findJob j2.job_id = some j2) := by
  have hkt : keyTruthy (some k) = true := by simp [keyTruthy, hk]
  rw [create_job_fresh m q1 k hk hfresh] at h1
  injection h1 with hj1 hm1
  subst hj1
  subst hm1
  have hne : ∀ j ∈ m.jobs, j.job_id ≠ m.nextId := fun j hj => Nat.ne_of_lt (hwf j hj)
  have h2jobs : m2.jobs = m.jobs ++
      [applyStatus (m.now + 1) st { job_id := m.nextId, query := q1, created_at := m.now, idempotency_key := some k }] := by
    rw [← h2]
    show ((m.jobs ++ [({ job_id := m.nextId, query := q1, created_at := m.now, idempotency_key := some k } : Job)]).map
      (fun j => if j.job_id == m.nextId then applyStatus (m.now + 1) st j else j)) = _
    rw [List.map_append, setJob_map_untouched m.jobs m.nextId _ hne]
    simp
  have h2next : m2.nextId = m.nextId + 1 := by rw [← h2]; rfl
  have h2now : m2.now = m.now + 2 := by rw [← h2]; rfl
  refine ⟨?_, ?_⟩
  · intro hact
    have hpredA : ((applyStatus (m.now + 1) st { job_id := m.nextId, query := q1, created_at := m.now, idempotency_key := some k }).idempotency_key == some k &&
        ((applyStatus (m.now + 1) st { job_id := m.nextId, query := q1, created_at := m.now, idempotency_key := some k }).status == JobStatus.completed ||
         (applyStatus (m.now + 1) st { job_id := m.nextId, query := q1, created_at := m.now, idempotency_key := some k }).status == JobStatus.running)) = true := by
      rcases hact with h | h <;> subst h <;>
        simp [applyStatus_key, applyStatus_status]
    have hhit2 : m2.jobs.find? (fun j => j.idempotency_key == some k &&
        (j.status == .completed || j.status == .running)) =
        some (applyStatus (m.now + 1) st { job_id := m.nextId, query := q1, created_at := m.now, idempotency_key := some k }) := by
      rw [h2jobs, List.find?_append, find?_key_none k m.jobs hfresh]
      simp only [Option.none_or, List.find?_singleton, hpredA, if_true]
    have e3 : m2.create_job q2 (some k) =
        (applyStatus (m.now + 1) st { job_id := m.nextId, query := q1, created_at := m.now, idempotency_key := some k },
         { m2 with now := m2.now + 1 }) := by
      unfold JobManager.create_job
      simp only [hkt, if_true, hhit2]
    rw [e3] at h3
    injection h3 with hj2 hm3
    subst hj2
    subst hm3
    exact ⟨applyStatus_job_id _ _ _, rfl⟩
  · intro hst1 hst2
    have hpredA : ((applyStatus (m.now + 1) st { job_id := m.nextId, query := q1, created_at := m.now, idempotency_key := some k }).idempotency_key == some k &&
        ((applyStatus (m.now + 1) st { job_id := m.nextId, query := q1, created_at := m.now, idempotency_key := some k }).status == JobStatus.completed ||
         (applyStatus (m.now + 1) st { job_id := m.nextId, query := q1, created_at := m.now, idempotency_key := some k }).status == JobStatus.running)) = false := by
      simp [applyStatus_status, beq_iff_eq, hst1, hst2]
    have hhit2 : m2.jobs.find? (fun j => j.idempotency_key == some k &&
        (j.status == .completed || j.status == .running)) = none := by
      rw [h2jobs, List.find?_append, find?_key_none k m.jobs hfresh]
      simp only [Option.none_or, List.find?_singleton, hpredA]
      rfl
    have e3 : m2.create_job q2 (some k) =
        ({ job_id := m2.nextId, query := q2, created_at := m2.now, idempotency_key := some k },
         { m2 with
            jobs := m2.jobs ++ [{ job_id := m2.nextId, query := q2, created_at := m2.now, idempotency_key := some k }],
            nextId := m2.nextId + 1, now := m2.now + 1 }) := by
      unfold JobManager.create_job
      simp only [hkt, if_true, hhit2]
    rw [e3] at h3
    injection h3 with hj2 hm3
    subst hj2
    subst hm3
    have hwf2 : m2.wf := by
      intro x hx
      rw [h2jobs] at hx
      rw [h2next]
      rcases List.mem_append.mp hx with hx | hx
      · exact Nat.lt_succ_of_lt (hwf x hx)
      · rw [List.mem_singleton.mp hx, applyStatus_job_id]
        exact Nat.lt_succ_self _
    refine ⟨rfl, ?_, ?_, ?_⟩
    · show m2.nextId ≠ m.nextId
      rw [h2next]
      omega
    · show m2.jobs.find? (fun j => j.job_id == m2.nextId) = none
      rw [List.find?_eq_none]
      intro x hx
      simpa using Nat.ne_of_lt (hwf2 x hx)
    · show (m2.jobs ++ [_]).find? (fun j : Job => j.job_id == m2.nextId) = _
      exact findJob_append_fresh m2 hwf2 _ rfl

/-- C1 counterexample: with the non-null empty-string idempotency key the
source's truthiness test skips deduplication: the first job is RUNNING at the
time of the second call, yet the second call returns a different job id (1,
not 0) and the registry then holds two jobs. -/
theorem create_idempotency_empty_key_cex :
    ((emptyManager.create_job "q1" (some "")).2.update_job_status 0 .running).statusOf 0
        = some .running
    ∧ (emptyManager.create_job "q1" (some "")).1.job_id = 0
    ∧ (((emptyManager.create_job "q1" (some "")).2.update_job_status 0 .running).create_job "q2" (some "")).1.job_id = 1
    ∧ (((emptyManager.create_job "q1" (some "")).2.update_job_status 0 .running).create_job "q2" (some "")).2.jobs.length = 2 :=
  ⟨by decide, by decide, by decide, by decide⟩

/-- Witness for C1 (amended) on the empty registry with key "key". -/
theorem create_idempotent_dedup_witness :
    ("key" : String) ≠ "" ∧
    (((emptyManager.create_job "a" (some "key")).2.update_job_status
        (emptyManager.create_job "a" (some "key")).1.job_id .running).create_job "b" (some "key")).1.job_id
      = (emptyManager.create_job "a" (some "key")).1.job_id := by
  refine ⟨by decide, ?_⟩
  exact ((create_idempotent_dedup emptyManager "a" "b" "key" (by decide) (by decide)
    (by intro j hj; cases hj) _ _ rfl .running _ rfl _ _ rfl).1 (Or.inl rfl)).1

/-- C4 (amended): a cancellation request observed at any checkpoint up to and
including the post-REPORT_GENERATION stage-boundary check (checkpoints 0-35:
five sub-step checks plus one boundary check for each of the first six
stages) makes the runner stop, mark the job CANCELLED — never COMPLETED — and
return the cancellation result without raising. The original claim also
covered the five sub-step checkpoints inside FINALIZATION (36-40): there the
pacing loop does observe the flag and stops, but `execute_job` performs no
cancellation check after the FINALIZATION stage, so the run still ends
COMPLETED; see the counterexample. -/
theorem cancel_checkpoint_cancels (t : Nat) (ht : t ≤ 35) :
    (executeJob ⟨some t, .ok ⟨"r"⟩⟩ 0 mPending).2 = .cancelledRes
    ∧ (executeJob ⟨some t, .ok ⟨"r"⟩⟩ 0 mPending).1.statusOf 0 = some .cancelled := by
  revert t
  decide

/-- Witness for C4 (amended) at checkpoint 7 (second sub-step of stage 2). -/
theorem cancel_checkpoint_cancels_witness :
    (7 : Nat) ≤ 35
    ∧ (executeJob ⟨some 7, .ok ⟨"r"⟩⟩ 0 mPending).2 = .cancelledRes
    ∧ (executeJob ⟨some 7, .ok ⟨"r"⟩⟩ 0 mPending).1.statusOf 0 = some .cancelled :=
  ⟨by decide, (cancel_checkpoint_cancels 7 (by decide)).1,
    (cancel_checkpoint_cancels 7 (by decide)).2⟩

set_option maxRecDepth 16384 in
/-- C4 counterexample: a cancellation request observed from checkpoint 36 on —
the first sub-step check inside FINALIZATION, where the pacing loop breaks
(the operation string keeps no sub-step annotation) — still ends with the job
COMPLETED and the completed result, not CANCELLED. -/
theorem cancel_during_finalization_completes :
    (executeJob ⟨some 36, .ok ⟨"r"⟩⟩ 0 mPending).2 = .completed ⟨"r"⟩
    ∧ (executeJob ⟨some 36, .ok ⟨"r"⟩⟩ 0 mPending).1.statusOf 0 = some .completed
    ∧ ((executeJob ⟨some 36, .ok ⟨"r"⟩⟩ 0 mPending).1.findJob 0).map
        (fun j => j.progress.current_operation) = some "Finalizing report and cleanup" :=
  ⟨by decide, by decide, by decide⟩


theorem run_stage1 :
    checkedStage none 0 .initialization
      "Initializing research agent and loading configurations"
      "Agent initialized successfully" (mPending.update_job_status 0 .running, 0)
    = .ok (execState1, 6) := by decide

theorem run_stage2 :
    checkedStage none 0 .document_retrieval
      "Searching document database using RAG"
      "Documents retrieved from vector database" (execState1, 6)
    = .ok (execState2, 12) := by decide

theorem run_stage3 :
    checkedStage none 0 .web_research
      "Conducting web research for current information"
      "Web research completed" (execState2, 12)
    = .ok (execState3, 18) := by decide

theorem run_stage4 :
    checkedStage none 0 .citation_verification
      "Verifying and formatting citations"
      "Citations verified and formatted" (execState3, 18)
    = .ok (execState4, 24) := by decide

theorem run_stage5 :
    checkedStage none 0 .compliance_check
      "Running PII scan and compliance checks"
      "Compliance check passed" (execState4, 24)
    = .ok (execState5, 30) := by decide

theorem run_stage6_delay :
    execStageWithDelay none 0 .report_generation
      "Generating comprehensive research report" 30 execState5
    = (execState6, 35) := by decide

theorem run_stage6_no_cancel : ¬ observeCancel none execState6 0 35 = true := by decide

theorem run_stage6_record :
    execState6.addRecord 0 JobStage.report_generation.value true
      "Report generated successfully" = execState7 := by decide

theorem run_stage7_delay :
    execStageWithDelay none 0 .finalization
      "Finalizing report and cleanup" (35 + 1) execState7
    = (execState8, 41) := by decide

theorem run_stage7_record :
    execState8.addRecord 0 JobStage.finalization.value true "Job finalized"
    = execState9 := by decide

set_option maxRecDepth 16384 in
theorem run_ok_eq (r : ResultData) :
    executeJob ⟨none, .ok r⟩ 0 mPending =
      (execState9.mark_job_completed 0 r, .completed r) := by
  unfold executeJob
  rw [show mPending.findJob 0 = some jPending from by decide]
  try dsimp only
  rw [run_stage1]
  try dsimp only
  rw [run_stage2]
  try dsimp only
  rw [run_stage3]
  try dsimp only
  rw [run_stage4]
  try dsimp only
  rw [run_stage5]
  try dsimp only
  rw [run_stage6_delay]
  try dsimp only
  rw [if_neg run_stage6_no_cancel]
  try dsimp only
  rw [run_stage6_record]
  try dsimp only
  rw [run_stage7_delay]
  try dsimp only
  rw [run_stage7_record]

set_option maxRecDepth 16384 in
/-- C8: a pipeline run with no failure and no cancellation request ends
COMPLETED, stores exactly the research collaborator's result, records exactly
the seven stages in the fixed order in `execution_history`, and the progress
percentage is 100. -/
theorem pipeline_success_complete (r : ResultData) :
    (executeJob ⟨none, .ok r⟩ 0 mPending).2 = .completed r
    ∧ (executeJob ⟨none, .ok r⟩ 0 mPending).1.statusOf 0 = some .completed
    ∧ ((executeJob ⟨none, .ok r⟩ 0 mPending).1.findJob 0).map Job.result
        = some (some r)
    ∧ ((executeJob ⟨none, .ok r⟩ 0 mPending).1.findJob 0).map
        (fun j => j.execution_history.map (fun er => er.stage)) = some stageOrder
    ∧ ((executeJob ⟨none, .ok r⟩ 0 mPending).1.findJob 0).map
        (fun j => j.progress.percentage) = some 100 := by
  have hfin := findJob_mark_job_completed execState9 0 r execJob9 (by decide)
  rw [run_ok_eq r]
  refine ⟨rfl, ?_, ?_, ?_, ?_⟩
  · show ((execState9.mark_job_completed 0 r).findJob 0).map Job.status
        = some .completed
    rw [hfin]
    rfl
  · show ((execState9.mark_job_completed 0 r).findJob 0).map Job.result
        = some (some r)
    rw [hfin]
    rfl
  · show ((execState9.mark_job_completed 0 r).findJob 0).map
        (fun j => j.execution_history.map (fun er => er.stage)) = some stageOrder
    rw [hfin]
    show some (execJob9.execution_history.map (fun er => er.stage)) = some stageOrder
    decide
  · show ((execState9.mark_job_completed 0 r).findJob 0).map
        (fun j => j.progress.percentage) = some 100
    rw [hfin]
    rfl

/-- C10: a pipeline failure triggers `mark_job_failed(allow_retry=True)` twice
— once in the executor's exception handler, which re-raises, and once in the
background wrapper that catches the propagated exception — so, on the
canonical job, one failed run advances `retry_count` by 2 and leaves
non-terminal RETRY, and with the default `max_retries = 3` the second failed
run already ends in terminal FAILED with `retry_count = 3` and `completed_at`
stamped, rather than after `max_retries + 1 = 4` failures. -/
theorem double_mark_failed_per_failure :
    ((executeJobWrapper ⟨none, .error "boom"⟩ 0 mPending).1.findJob 0).map
        Job.retry_count = some 2
    ∧ (executeJobWrapper ⟨none, .error "boom"⟩ 0 mPending).1.statusOf 0
        = some .retryStatus
    ∧ ((executeJobWrapper ⟨none, .error "boom"⟩ 0
          (executeJobWrapper ⟨none, .error "boom"⟩ 0 mPending).1).1.findJob 0).map
        Job.retry_count = some 3
    ∧ (executeJobWrapper ⟨none, .error "boom"⟩ 0
          (executeJobWrapper ⟨none, .error "boom"⟩ 0 mPending).1).1.statusOf 0
        = some .failed
    ∧ ((executeJobWrapper ⟨none, .error "boom"⟩ 0
          (executeJobWrapper ⟨none, .error "boom"⟩ 0 mPending).1).1.findJob 0).map
        (fun j => j.completed_at.isSome) = some true := by
  refine ⟨by decide, by decide, by decide, by decide, by decide⟩
